import Mathlib

/-!
Shallow embedding of the BITS tutorial validation scripts:
`scripts/explore_iocs.py`, `scripts/validate_setup.py`,
`examples/validation_scripts/test_devices.py`, and
`examples/validation_scripts/test_plans.py`.

Python loops that append one result per item become structural recursion over
lists; `try`/`except` bodies become `Except String`-valued reads whose handler
branch is the `.error` case; Python process exit codes become `Nat` results of
the embedded `main` functions; wall-clock durations (for the timeout claims)
become explicit `Option Nat` durations where `none` stands for an operation
that never returns.
-/

namespace BitsValidation

/-- Three-way classification of a single device probe, as in the spec's
`ProbeResult.outcome`: a connected read is a pass, a completed read reporting
the device not connected is a fail, a raised exception is an error. -/
inductive Outcome
  | pass
  | fail
  | error
deriving DecidableEq

namespace TestDevices

/-- Behaviour of one motor's attribute reads in the loop body of
`test_device_connectivity` (test_devices.py lines 33-55): reading
`motor.position`, `motor.limits` and `motor.connected` inside the `try`
either yields the three values or raises with a message (the `except` path). -/
structure MotorBehavior where
  name : String
  read : Except String (Int × (Int × Int) × Bool)

/-- Behaviour of one baseline device in the loop body of
`test_device_connectivity` (test_devices.py lines 99-115): `dev.get()` and
`dev.connected` inside the `try` either yield a value and a connected flag or
raise with a message. -/
structure BaselineBehavior where
  name : String
  read : Except String (Int × Bool)

/-- One entry of the per-device result dictionaries built by
`test_device_connectivity`. `connected` is the value the summary reads back
via `r.get('connected', False)` (an errored entry has no `connected` key, so
it reads as `False`); `outcome` is the three-way classification (`'✅'` for a
connected device, `'❌'` for a completed-but-not-connected read, error entry
for a raised exception); `errorMsg` is the captured `str(e)`. -/
structure ProbeRecord where
  connected : Bool
  outcome : Outcome
  errorMsg : Option String
deriving DecidableEq

/-- Loop body for one motor (test_devices.py lines 34-55): on a successful
read the record stores the connected flag; on an exception the handler stores
the message. The function is total: no exception escapes to the caller. -/
def probeMotor (m : MotorBehavior) : ProbeRecord :=
  match m.read with
  | .ok (_, _, c) => ⟨c, if c then .pass else .fail, none⟩
  | .error e => ⟨false, .error, some e⟩

/-- Loop body for one baseline device (test_devices.py lines 100-115). -/
def probeBaseline (d : BaselineBehavior) : ProbeRecord :=
  match d.read with
  | .ok (_, c) => ⟨c, if c then .pass else .fail, none⟩
  | .error e => ⟨false, .error, some e⟩

/-- The `for motor in motors:` loop of `test_device_connectivity`
(test_devices.py lines 33-55): one record per device, in device order. -/
def probeMotorLoop : List MotorBehavior → List ProbeRecord
  | [] => []
  | m :: ms => probeMotor m :: probeMotorLoop ms

/-- The `for dev in baseline:` loop of `test_device_connectivity`
(test_devices.py lines 99-115). -/
def probeBaselineLoop : List BaselineBehavior → List ProbeRecord
  | [] => []
  | d :: ds => probeBaseline d :: probeBaselineLoop ds

/-- `sum(1 for r in results.values() if r.get('connected', False))`
(test_devices.py lines 120, 124, 128). -/
def connectedCount (rs : List ProbeRecord) : Nat := rs.countP (·.connected)

/-- Overall connectivity verdict of `test_device_connectivity`
(test_devices.py lines 132-140): `connected_devices == total_devices`. -/
def connectivitySummary (motorRs detRs baseRs : List ProbeRecord) : Bool :=
  connectedCount motorRs + connectedCount detRs + connectedCount baseRs
    == motorRs.length + detRs.length + baseRs.length

/-- Appending one outcome to a suite's ordered result sequence: the spec's
`record` operation, realised in the code by `results.append(...)` /
`motor_results[motor.name] = ...` entries added one per probe. -/
def record (rs : List Outcome) (o : Outcome) : List Outcome := rs ++ [o]

/-- Derived pass count of a result sequence: the code computes it by summing
over results (test_devices.py lines 120-133 and 301-306). -/
def passedCount (rs : List Outcome) : Nat := rs.countP (· == Outcome.pass)

/-- Count of results that are fail or error (everything except pass). -/
def failedOrErrorCount (rs : List Outcome) : Nat := rs.countP (· != Outcome.pass)

/-- Derived total count: `len(results)`. -/
def totalCount (rs : List Outcome) : Nat := rs.length

/-- One scheduled suite of `main` (test_devices.py lines 279-283 and
validate_setup.py lines 374-382): a name plus a run that either returns a
boolean or raises. -/
structure SuiteRun where
  name : String
  run : Except String Bool

/-- The `try`/`except` around one suite call in `main` (test_devices.py lines
289-294, validate_setup.py lines 387-392): a raised exception is recorded as a
failed suite. -/
def runOne (t : SuiteRun) : Bool :=
  match t.run with
  | .ok b => b
  | .error _ => false

/-- The suite loop of `main` (test_devices.py lines 287-294) and of
`generate_summary_report` (validate_setup.py lines 384-392): results are
accumulated by appending one entry per scheduled suite, head suite first. -/
def runSuitesLoop : List SuiteRun → List (String × Bool) → List (String × Bool)
  | [], acc => acc
  | t :: ts, acc => runSuitesLoop ts (acc ++ [(t.name, runOne t)])

/-- `results = []` followed by the suite loop. -/
def runSuites (ts : List SuiteRun) : List (String × Bool) := runSuitesLoop ts []

/-- `passed` counter of `main` (test_devices.py lines 301-306): the number of
suites whose result is `True`. -/
def passedSuites (results : List Bool) : Nat := results.countP id

/-- Return value of `main` (test_devices.py lines 310-315), which becomes the
process exit code via `sys.exit(main())`: 0 when `passed == len(results)`,
1 otherwise. -/
def mainExitCode (results : List Bool) : Nat :=
  if passedSuites results = results.length then 0 else 1

/-- The spec's `overallPassed()` over per-suite (passedCount, totalCount)
pairs: every suite that was run has `passedCount == totalCount`. -/
def overallPassed (suites : List (Nat × Nat)) : Bool :=
  suites.all fun pt => pt.1 == pt.2

/-- Branch structure of `test_data_collection` (test_devices.py lines
215-272): outer `try` fails on a failed instrument import (`loaded`), then the
`RE`/`cat` guard (lines 226-228), then the empty-discovery guard
`if not (motors and detectors): return False` (lines 237-239), then the scan
inside the `try` (an exception yields `False` via the outer handler), and
finally `new_runs > 0` decides the result (lines 257-268). -/
def test_data_collection (loaded hasRECat : Bool) (motors detectors : List String)
    (scanRaises : Bool) (newRuns : Nat) : Bool :=
  if !loaded then false
  else if !hasRECat then false
  else if motors.isEmpty || detectors.isEmpty then false
  else if scanRaises then false
  else decide (0 < newRuns)

/-- `RE(bps.mvr(motor, d))`. Modelled from the spec: the execution-engine
contract (spec §6) for a relative move — the engine, an external collaborator
outside this repository, moves the motor from position `p` to `p + d`. Only
the plan sequence around it (test_devices.py lines 171-189) is repository
code. -/
def mvr (p d : ℚ) : ℚ := p + d

/-- The motor round trip of `test_device_operations` (test_devices.py lines
171-189): capture `initial_pos`, move by `+move_amount`, then move back by
`-move_amount`; this is the final position. -/
def motorMotionFinalPos (p0 d : ℚ) : ℚ := mvr (mvr p0 d) (-d)

end TestDevices

namespace TestPlans

/-- Branch structure of `test_plan_simulation` (test_plans.py lines 13-99):
failed instrument lookup (`loaded`, lines 31-33), the empty-discovery guard
`if not (motors and detectors): return False` (lines 43-45), the loading of
the custom-plans module (`plansFound`, lines 90-92), then the loop whose verdict is
`successful_plans == len(plans_to_test)` (lines 87-88). -/
def test_plan_simulation (loaded : Bool) (motors detectors : List String)
    (plansFound : Bool) (planOutcomes : List Bool) : Bool :=
  if !loaded then false
  else if motors.isEmpty || detectors.isEmpty then false
  else if !plansFound then false
  else planOutcomes.countP id == planOutcomes.length

end TestPlans

namespace ValidateSetup

/-- Return value of `generate_summary_report` (validate_setup.py line 424):
`passed == len(results)`. -/
def summaryPassed (results : List Bool) : Bool :=
  results.countP id == results.length

/-- Exit code of `main` (validate_setup.py lines 426-442): `sys.exit(0)` when
`generate_summary_report()` returned `True`, `sys.exit(1)` otherwise. -/
def validateMain (results : List Bool) : Nat :=
  if summaryPassed results then 0 else 1

end ValidateSetup

namespace Registry

/-- The capability index `bpp._devices_by_label`, modelled as an association
list from label to the registered device names (registration order). -/
abbrev Assoc := List (String × List String)

/-- Python dict lookup: `some` when the label key is present (even with an
empty device list), `none` when the label was never registered. -/
def lookupLabel : Assoc → String → Option (List String)
  | [], _ => none
  | (l, ds) :: rest, lbl => if l = lbl then some ds else lookupLabel rest lbl

/-- Discovery as the repository performs it:
`bpp._devices_by_label.get(label, [])` (test_devices.py lines 29, 58, 95;
test_plans.py lines 40-41; validate_setup.py lines 270-271) — a dict `get`
with default `[]`, which never raises. -/
def discover (reg : Assoc) (lbl : String) : List String :=
  (lookupLabel reg lbl).getD []

/-- Whether a label was ever registered. -/
def registered (reg : Assoc) (lbl : String) : Bool :=
  (lookupLabel reg lbl).isSome

/-- Modelled from the spec: discovery as §4.1 describes it — "Fails with
`UnknownLabelError` if a requested label was never registered (distinct from
'registered but empty', which returns an empty sequence)". No such error path
exists anywhere in the repository; this definition follows the spec's words and
is compared against `discover`, the definition taken from the source. -/
def discoverSpec (reg : Assoc) (lbl : String) : Except String (List String) :=
  match lookupLabel reg lbl with
  | some ds => .ok ds
  | none => .error "UnknownLabelError"

end Registry

namespace ExploreIOCs

/-- Timing behaviour of one EPICS PV as seen by `IOCExplorer`: `connectTime`
is how long the backend takes to connect (`none`: never connects); `readTime`
is how long `pv.get()` takes once connected (`none`: the read never returns).
Durations are abstract time units. -/
structure PVBehavior where
  connectTime : Option Nat
  readTime : Option Nat
deriving DecidableEq

/-- `pv.wait_for_connection(timeout=...)` (explore_iocs.py line 65): returns
whether the PV connected within the timeout, together with the elapsed wait —
the backend honours the bound, so the wait never exceeds the timeout. -/
def waitForConnection (b : PVBehavior) (timeout : Nat) : Bool × Nat :=
  match b.connectTime with
  | some c => if c ≤ timeout then (true, c) else (false, timeout)
  | none => (false, timeout)

/-- Addition of possibly-infinite durations: an operation that never returns
absorbs the whole computation. -/
def durAdd : Option Nat → Option Nat → Option Nat
  | some a, some b => some (a + b)
  | _, _ => none

/-- Elapsed time of the per-PV body of `test_connectivity` (explore_iocs.py
lines 62-71): `pv.wait_for_connection(timeout=self.timeout)` followed, on
success, by `pv.get()` — which is called with no timeout argument, so its
duration is whatever the backend takes, unbounded by the caller. `none` means
the body never returns. (The baseline probe of test_devices.py lines 99-108
calls `dev.get()` with no bound at all, so it is no better.) -/
def checkPVElapsed (b : PVBehavior) (timeout : Nat) : Option Nat :=
  let w := waitForConnection b timeout
  if w.1 then durAdd (some w.2) b.readTime else some w.2

/-- Whether the per-PV body of `test_connectivity` counted the PV as
connected (explore_iocs.py line 65). -/
def checkPVConnected (b : PVBehavior) (timeout : Nat) : Bool :=
  (waitForConnection b timeout).1

/-- One device entry as built by `find_motors` / `find_detectors`
(explore_iocs.py lines 81-136): the `pv`, `description` and `type` keys, plus
the optional `channels` and `dimensions` keys of detector entries. -/
structure DeviceEntry where
  pv : String
  description : String
  type : String
  channels : Option Nat := none
  dimensions : Option (Nat × Nat) := none
deriving DecidableEq

/-- One motor entry (explore_iocs.py lines 94-98 and 103-107). -/
def motorEntry (i : Nat) (desc : String) : DeviceEntry :=
  { pv := "gp:m" ++ toString i, description := desc, type := "EpicsMotor" }

/-- `find_motors` (explore_iocs.py lines 81-109). The loop runs `i` over
`range(1, 21)`. With PyEPICS available, `descBackend i` models the `.DESC`
probe: `none` when the connection fails within 1.0 s or the `try` raises (the
entry is skipped), `some d` when it connects with `d` the fetched description
(`none` inside models a `None` value, replaced by the `desc or f"Motor {i}"`
fallback). Without PyEPICS, every expected motor is appended unconditionally. -/
def find_motors (epicsAvailable : Bool) (descBackend : Nat → Option (Option String)) :
    List DeviceEntry :=
  (List.range' 1 20).filterMap fun i =>
    if epicsAvailable then
      match descBackend i with
      | some d => some (motorEntry i (d.getD ("Motor " ++ toString i)))
      | none => none
    else
      some (motorEntry i ("Motor " ++ toString i))

/-- The two keys of the dict returned by `find_detectors`. -/
structure DetectorInventory where
  scalers : List DeviceEntry
  area_detectors : List DeviceEntry
deriving DecidableEq

/-- `find_detectors` (explore_iocs.py lines 111-136): a constant — the method
touches no backend and takes no input, so the embedding has no parameters.
Scalers come from `range(1, 4)`; one area-detector entry is appended. -/
def find_detectors : DetectorInventory :=
  { scalers := (List.range' 1 3).map fun i =>
      { pv := "gp:scaler" ++ toString i
        description := "Scaler " ++ toString i
        type := "ScalerCH"
        channels := some 32 }
    area_detectors :=
      [{ pv := "adsim:"
         description := "Simulated Area Detector"
         type := "ADBSoftDetector"
         dimensions := some (1024, 1024) }] }

/-- One channel-access operation issued by `IOCExplorer` methods. -/
inductive PVOp
  | connect (pv : String) (timeout : Nat)
  | get (pv : String)
  | put (pv : String) (v : Int)
deriving DecidableEq

/-- Whether an operation is a write. -/
def PVOp.isPut : PVOp → Bool
  | .put _ _ => true
  | _ => false

/-- The state of the EPICS process-variable namespace: each PV's current
value and whether it is reachable. -/
structure EpicsState where
  val : String → Int
  connected : String → Bool

/-- Effect of one channel-access operation on PV state: only `put` changes
anything; `connect` and `get` are reads. -/
def runOp (s : EpicsState) : PVOp → EpicsState
  | .put pv v => { s with val := fun p => if p = pv then v else s.val p }
  | _ => s

/-- Effect of a sequence of operations. -/
def runOps (s : EpicsState) (ops : List PVOp) : EpicsState := ops.foldl runOp s

/-- Result of `test_device_motion`: the returned boolean, the channel-access
operations the call issued, and the target position it printed (the code
computes `target = initial_pos + relative_move` and only reports it — "For
demo, we'll just report the plan", explore_iocs.py line 242). -/
structure MotionTestResult where
  ok : Bool
  ops : List PVOp
  plannedTarget : Option Int
deriving DecidableEq

/-- `IOCExplorer.test_device_motion` (explore_iocs.py lines 220-248): without
PyEPICS it returns `False` immediately; otherwise it connects to
`{motor_pv}.RBV`, returns `False` if that fails, and on success reads the
readback, computes the would-be target, prints the plan and returns `True`.
No `.put` is ever issued — the second `PV(f"{motor_pv}.RBV")` handle
(`move_pv`) is created and never used for a write. A connected PV's `get`
yields its current numeric value. -/
def test_device_motion (epicsAvailable : Bool) (s : EpicsState) (motor_pv : String)
    (relative_move : Int) : MotionTestResult :=
  if !epicsAvailable then { ok := false, ops := [], plannedTarget := none }
  else
    let rbv := motor_pv ++ ".RBV"
    if !(s.connected rbv) then
      { ok := false, ops := [.connect rbv 2], plannedTarget := none }
    else
      { ok := true
        ops := [.connect rbv 2, .get rbv]
        plannedTarget := some (s.val rbv + relative_move) }

end ExploreIOCs

end BitsValidation

namespace BitsValidation

theorem countP_pass_not (rs : List Outcome) :
    rs.countP (· == Outcome.pass) + rs.countP (· != Outcome.pass) = rs.length := by
  induction rs with
  | nil => rfl
  | cons a l ih =>
    simp only [List.countP_cons]
    cases a <;> simp <;> omega

theorem probeMotor_connected_eq (m : TestDevices.MotorBehavior) :
    (TestDevices.probeMotor m).connected
      = ((TestDevices.probeMotor m).outcome == Outcome.pass) := by
  cases hr : m.read with
  | ok v =>
    obtain ⟨p, l, c⟩ := v
    simp only [TestDevices.probeMotor, hr]
    cases c <;> rfl
  | error e =>
    simp only [TestDevices.probeMotor, hr]
    rfl

theorem connectedCount_eq_passedCount (ms : List TestDevices.MotorBehavior) :
    TestDevices.connectedCount (TestDevices.probeMotorLoop ms)
      = TestDevices.passedCount ((TestDevices.probeMotorLoop ms).map (·.outcome)) := by
  induction ms with
  | nil => rfl
  | cons m ms ih =>
    simp only [TestDevices.probeMotorLoop, TestDevices.connectedCount,
      TestDevices.passedCount, List.map_cons, List.countP_cons] at *
    rw [ih, probeMotor_connected_eq m]

theorem runSuitesLoop_eq (ts : List TestDevices.SuiteRun) (acc : List (String × Bool)) :
    TestDevices.runSuitesLoop ts acc
      = acc ++ ts.map (fun t => (t.name, TestDevices.runOne t)) := by
  induction ts generalizing acc with
  | nil => simp [TestDevices.runSuitesLoop]
  | cons t ts ih => simp [TestDevices.runSuitesLoop, ih]

theorem probeMotorLoop_eq_map (ms : List TestDevices.MotorBehavior) :
    TestDevices.probeMotorLoop ms = ms.map TestDevices.probeMotor := by
  induction ms with
  | nil => rfl
  | cons m ms ih => simp [TestDevices.probeMotorLoop, ih]

theorem probeBaselineLoop_eq_map (bs : List TestDevices.BaselineBehavior) :
    TestDevices.probeBaselineLoop bs = bs.map TestDevices.probeBaseline := by
  induction bs with
  | nil => rfl
  | cons b bs ih => simp [TestDevices.probeBaselineLoop, ih]

theorem exitCode_zero_iff (results : List Bool) :
    TestDevices.mainExitCode results = 0 ↔ results.all id = true := by
  unfold TestDevices.mainExitCode TestDevices.passedSuites
  constructor
  · intro h
    by_cases hc : results.countP id = results.length
    · exact List.all_eq_true.mpr fun x hx => List.countP_eq_length.mp hc x hx
    · simp [hc] at h
  · intro h
    have hc : results.countP id = results.length :=
      List.countP_eq_length.mpr fun a ha => List.all_eq_true.mp h a ha
    simp [hc]

/-- C1: the SuiteReport counting invariant holds after every `record`
operation, not only at read time: for every result sequence and every newly
recorded outcome, `passedCount + failedOrErrorCount = totalCount` holds both
before and after the append, `totalCount` grows by exactly one, `passedCount`
grows by one exactly when the recorded outcome is a pass; and in the
connectivity suite the code's connected-device count equals the pass count of
the probe outcomes. -/
theorem c1_suite_report_invariant (rs : List Outcome) (o : Outcome) :
    TestDevices.passedCount (TestDevices.record rs o)
        + TestDevices.failedOrErrorCount (TestDevices.record rs o)
      = TestDevices.totalCount (TestDevices.record rs o) ∧
    TestDevices.passedCount rs + TestDevices.failedOrErrorCount rs
      = TestDevices.totalCount rs ∧
    TestDevices.totalCount (TestDevices.record rs o) = TestDevices.totalCount rs + 1 ∧
    TestDevices.passedCount (TestDevices.record rs o)
      = TestDevices.passedCount rs + (if o = Outcome.pass then 1 else 0) ∧
    ∀ ms : List TestDevices.MotorBehavior,
      TestDevices.connectedCount (TestDevices.probeMotorLoop ms)
        = TestDevices.passedCount ((TestDevices.probeMotorLoop ms).map (·.outcome)) := by
  refine ⟨countP_pass_not _, countP_pass_not rs, ?_, ?_, connectedCount_eq_passedCount⟩
  · simp [TestDevices.totalCount, TestDevices.record]
  · unfold TestDevices.passedCount TestDevices.record
    rw [List.countP_append]
    cases o <;> simp [List.countP_cons]

/-- C2: for every validation run of either entry point the exit code is 0 when
every suite passed and 1 otherwise, and no other exit code is produced: the
code is always 0 or 1, it is 0 exactly when every suite result is true, the
two entry points compute the same code, and when per-suite verdicts are the
count comparisons `passedCount == totalCount` the code is 0 exactly when the
spec's `overallPassed` holds. -/
theorem c2_exit_codes (results : List Bool) (suites : List (Nat × Nat)) :
    (TestDevices.mainExitCode results = 0 ∨ TestDevices.mainExitCode results = 1) ∧
    (TestDevices.mainExitCode results = 0 ↔ results.all id = true) ∧
    ValidateSetup.validateMain results = TestDevices.mainExitCode results ∧
    (TestDevices.mainExitCode (suites.map fun pt => pt.1 == pt.2) = 0 ↔
      TestDevices.overallPassed suites = true) := by
  refine ⟨?_, exitCode_zero_iff results, ?_, ?_⟩
  · unfold TestDevices.mainExitCode
    split <;> simp
  · unfold ValidateSetup.validateMain ValidateSetup.summaryPassed
      TestDevices.mainExitCode TestDevices.passedSuites
    by_cases h : results.countP id = results.length <;> simp [h]
  · rw [exitCode_zero_iff]
    unfold TestDevices.overallPassed
    simp

/-- C3: suites run strictly sequentially and in isolation: for every sequence
of scheduled suites and every pattern of per-suite failures or raised
exceptions, the head suite's result is recorded before the remaining suites
contribute anything, exactly one result is recorded per scheduled suite, and
the i-th recorded result is determined by the i-th suite alone — no earlier
suite's failure or exception prevents a later suite from being run and
recorded. -/
theorem c3_suites_sequential_isolated (ts : List TestDevices.SuiteRun) :
    TestDevices.runSuites ts = ts.map (fun t => (t.name, TestDevices.runOne t)) ∧
    (TestDevices.runSuites ts).length = ts.length ∧
    (∀ t rest, TestDevices.runSuites (t :: rest)
      = (t.name, TestDevices.runOne t) :: TestDevices.runSuites rest) ∧
    ∀ i : Nat, (TestDevices.runSuites ts)[i]?
      = (ts[i]?).map fun t => (t.name, TestDevices.runOne t) := by
  have hmap : ∀ us : List TestDevices.SuiteRun,
      TestDevices.runSuites us = us.map (fun t => (t.name, TestDevices.runOne t)) :=
    fun us => by simpa [TestDevices.runSuites] using runSuitesLoop_eq us []
  refine ⟨hmap ts, ?_, ?_, ?_⟩
  · rw [hmap ts, List.length_map]
  · intro t rest
    rw [hmap (t :: rest), hmap rest, List.map_cons]
  · intro i
    rw [hmap ts, List.getElem?_map]

/-- C4: the connectivity probe never raises to its caller. For every device
and every backend behaviour the loop body is a total function that returns one
of the three classifications as data — a connected read is a pass, a
completed read reporting the device unreachable is a fail, a raised backend
fault is an error with the message captured — and iterating the probe over a
device list records exactly one result per device, in order, so every device
is processed. -/
theorem c4_probe_never_raises (ms : List TestDevices.MotorBehavior)
    (bs : List TestDevices.BaselineBehavior) :
    (TestDevices.probeMotorLoop ms).length = ms.length ∧
    (∀ i : Nat, (TestDevices.probeMotorLoop ms)[i]? = (ms[i]?).map TestDevices.probeMotor) ∧
    (TestDevices.probeBaselineLoop bs).length = bs.length ∧
    (∀ i : Nat, (TestDevices.probeBaselineLoop bs)[i]?
      = (bs[i]?).map TestDevices.probeBaseline) ∧
    (∀ n p l c, TestDevices.probeMotor ⟨n, .ok (p, l, c)⟩
      = ⟨c, if c then .pass else .fail, none⟩) ∧
    (∀ n e, TestDevices.probeMotor ⟨n, .error e⟩ = ⟨false, .error, some e⟩) ∧
    (∀ n v c, TestDevices.probeBaseline ⟨n, .ok (v, c)⟩
      = ⟨c, if c then .pass else .fail, none⟩) ∧
    (∀ n e, TestDevices.probeBaseline ⟨n, .error e⟩ = ⟨false, .error, some e⟩) := by
  refine ⟨?_, ?_, ?_, ?_, fun n p l c => rfl, fun n e => rfl,
    fun n v c => rfl, fun n e => rfl⟩
  · rw [probeMotorLoop_eq_map, List.length_map]
  · intro i
    rw [probeMotorLoop_eq_map, List.getElem?_map]
  · rw [probeBaselineLoop_eq_map, List.length_map]
  · intro i
    rw [probeBaselineLoop_eq_map, List.getElem?_map]

/-- C5 counterexample: a PV that connects immediately but whose read never
returns makes the connectivity check block forever. Its elapsed time is
`none` — the check never returns at all, let alone within the 5-unit timeout
plus any small fixed tolerance — even though the connection phase succeeded
within the timeout: the `pv.get()` issued after a successful
`wait_for_connection` (explore_iocs.py line 66) carries no timeout argument,
so the claimed bound is refuted at this input. -/
theorem c5_counterexample_blocking_read :
    ExploreIOCs.checkPVElapsed ⟨some 0, none⟩ 5 = none ∧
    ExploreIOCs.checkPVConnected ⟨some 0, none⟩ 5 = true :=
  ⟨rfl, rfl⟩

/-- C5 (amended): only the connection wait is bounded by the caller-supplied
timeout — the value read after a successful connection is not timeout-bounded.
For every PV behaviour, whenever the read returns at all (in `r` time units)
the check returns within `timeout + r`, and a PV that never connects is turned
away within the timeout itself; but the bound degrades with the backend's read
duration rather than being `timeout` plus a small fixed tolerance. -/
theorem c5_connection_wait_bounded (b : ExploreIOCs.PVBehavior) (t r : Nat) :
    (b.readTime = some r →
      ∃ e, ExploreIOCs.checkPVElapsed b t = some e ∧ e ≤ t + r) ∧
    (b.connectTime = none → ExploreIOCs.checkPVElapsed b t = some t) := by
  constructor
  · intro hr
    unfold ExploreIOCs.checkPVElapsed ExploreIOCs.waitForConnection
    cases hc : b.connectTime with
    | none => exact ⟨t, by simp, by omega⟩
    | some c =>
      by_cases h : c ≤ t
      · exact ⟨c + r, by simp [h, hr, ExploreIOCs.durAdd], by omega⟩
      · exact ⟨t, by simp [h], by omega⟩
  · intro hc
    unfold ExploreIOCs.checkPVElapsed ExploreIOCs.waitForConnection
    simp [hc]

/-- Witness for the amended C5 bound at concrete inputs: a PV connecting in 2
units whose read takes 3 units is within `5 + 3`, and a never-connecting PV is
turned away at exactly the 5-unit timeout. -/
theorem c5_connection_wait_bounded_witness :
    (∃ e, ExploreIOCs.checkPVElapsed ⟨some 2, some 3⟩ 5 = some e ∧ e ≤ 5 + 3) ∧
    ExploreIOCs.checkPVElapsed ⟨none, some 3⟩ 5 = some 5 :=
  ⟨(c5_connection_wait_bounded ⟨some 2, some 3⟩ 5 3).1 rfl,
   (c5_connection_wait_bounded ⟨none, some 3⟩ 5 3).2 rfl⟩

/-- C6 counterexample: discovery is a dict `get` with default `[]`, so on a
registry where "unregistered-label" was never registered the code returns the
empty sequence as ordinary data instead of raising — it disagrees with the
spec-modelled `discoverSpec`, which demands `UnknownLabelError` at exactly
this input. -/
theorem c6_counterexample_no_unknown_label_error :
    Registry.discover [] "unregistered-label" = [] ∧
    Registry.discoverSpec [] "unregistered-label"
      = Except.error "UnknownLabelError" ∧
    Except.ok (Registry.discover [] "unregistered-label")
      ≠ Registry.discoverSpec [] "unregistered-label" := by
  refine ⟨rfl, rfl, ?_⟩
  intro h
  exact Except.noConfusion h

/-- C6 (amended): discovery never raises. A label that was never registered
yields the empty sequence — the dict-get default — exactly as a registered but
empty label does; the two cases are indistinguishable to the caller and
neither is an error. -/
theorem c6_discover_never_raises (reg : Registry.Assoc) (lbl : String) :
    (Registry.registered reg lbl = false → Registry.discover reg lbl = []) ∧
    (Registry.lookupLabel reg lbl = some [] → Registry.discover reg lbl = []) := by
  constructor
  · intro h
    unfold Registry.registered at h
    unfold Registry.discover
    cases hc : Registry.lookupLabel reg lbl with
    | none => rfl
    | some ds => rw [hc] at h; simp at h
  · intro h
    unfold Registry.discover
    rw [h]
    rfl

/-- Witness for the amended C6 at concrete inputs: an empty registry with an
unregistered label, and a registry whose "support" label is registered but
empty, both yield the empty sequence. -/
theorem c6_discover_never_raises_witness :
    Registry.discover [] "motors" = [] ∧
    Registry.discover [("support", [])] "support" = [] :=
  ⟨(c6_discover_never_raises [] "motors").1 rfl,
   (c6_discover_never_raises [("support", [])] "support").2 (by simp [Registry.lookupLabel])⟩

/-- C7 counterexample: a data-collection suite whose discovery yields zero
motors fails on its own. With the instrument loaded, RunEngine and catalog
available, a detector present, no exception, and a scan that would have added
a run, the suite still returns `False` from the empty-discovery guard
(test_devices.py lines 237-239); a run whose other suites all passed then
exits 1 because of that suite alone — the empty suite is a failure, not a
warning, and it does change the exit status. -/
theorem c7_counterexample_empty_suite_fails :
    TestDevices.test_data_collection true true [] ["gp:scaler1"] false 1 = false ∧
    TestDevices.mainExitCode [true, true, false] = 1 := by
  exact ⟨rfl, by decide⟩

/-- C7 (amended): the scripts are inconsistent about suites with
`totalCount == 0`. The connectivity suite reports zero discovered devices as a
pass (0 connected of 0 total), but the plan-simulation and data-collection
suites return failure whenever discovery yields no motors, and any suite that
returns failure — including one failing only because nothing was discovered —
makes the overall exit code 1. An empty suite therefore does affect the exit
status in those suites rather than being surfaced as a warning. -/
theorem c7_empty_suite_fails_run (dets : List String) (sr pf : Bool) (nr : Nat)
    (po : List Bool) (rs : List Bool) :
    TestDevices.test_data_collection true true [] dets sr nr = false ∧
    TestPlans.test_plan_simulation true [] dets pf po = false ∧
    TestDevices.connectivitySummary [] [] [] = true ∧
    (false ∈ rs → TestDevices.mainExitCode rs = 1) := by
  refine ⟨rfl, rfl, rfl, ?_⟩
  intro hmem
  unfold TestDevices.mainExitCode TestDevices.passedSuites
  rw [if_neg]
  intro heq
  have := List.countP_eq_length.mp heq false hmem
  simp at this

/-- Witness for the amended C7 at a concrete input: with one detector
discovered but zero motors, the data-collection suite fails, and a run whose
suite results are `[true, false]` exits 1. -/
theorem c7_empty_suite_fails_run_witness :
    TestDevices.test_data_collection true true [] ["gp:scaler2"] false 2 = false ∧
    TestDevices.mainExitCode [true, false] = 1 :=
  ⟨(c7_empty_suite_fails_run ["gp:scaler2"] false false 2 [] [true, false]).1,
   (c7_empty_suite_fails_run ["gp:scaler2"] false false 2 [] [true, false]).2.2.2
     (by decide)⟩

/-- C8: round-trip motion idempotence — the operations-test plan that moves a
motor by `+d` and then by `-d` leaves its position within every nonnegative
tolerance of the pre-plan position (the round trip is exact in the
relative-move model of the engine). -/
theorem c8_round_trip_motion (p0 d eps : ℚ) (heps : 0 ≤ eps) :
    |TestDevices.motorMotionFinalPos p0 d - p0| ≤ eps := by
  have h : TestDevices.motorMotionFinalPos p0 d = p0 := by
    unfold TestDevices.motorMotionFinalPos TestDevices.mvr
    ring
  rw [h, sub_self, abs_zero]
  exact heps

/-- Witness for C8 at a concrete input: the code's own `move_amount = 0.1`
round trip from position 0 lands within tolerance 0 of the start. -/
theorem c8_round_trip_motion_witness :
    (0 : ℚ) ≤ 0 ∧ |TestDevices.motorMotionFinalPos 0 (1 / 10) - 0| ≤ 0 :=
  ⟨le_refl 0, c8_round_trip_motion 0 (1 / 10) 0 (le_refl 0)⟩

/-- C9: IOC device discovery is static, not probed. `find_detectors` is a
constant — it performs no channel access and depends on no IOC state (its
embedding takes no backend parameter at all) — returning exactly the three
scaler entries `gp:scaler1..gp:scaler3` and exactly one area-detector entry;
and without PyEPICS `find_motors` returns, for every conceivable backend,
exactly the twenty entries `gp:m1..gp:m20` in ascending index order. -/
theorem c9_static_discovery (backend : Nat → Option (Option String)) :
    ExploreIOCs.find_detectors.scalers.map (·.pv)
      = ["gp:scaler1", "gp:scaler2", "gp:scaler3"] ∧
    ExploreIOCs.find_detectors.scalers.length = 3 ∧
    ExploreIOCs.find_detectors.area_detectors.length = 1 ∧
    (ExploreIOCs.find_motors false backend).map (·.pv)
      = ["gp:m1", "gp:m2", "gp:m3", "gp:m4", "gp:m5", "gp:m6", "gp:m7",
         "gp:m8", "gp:m9", "gp:m10", "gp:m11", "gp:m12", "gp:m13", "gp:m14",
         "gp:m15", "gp:m16", "gp:m17", "gp:m18", "gp:m19", "gp:m20"] ∧
    (ExploreIOCs.find_motors false backend).length = 20 :=
  ⟨rfl, rfl, rfl, rfl, rfl⟩

/-- C10: `test_device_motion` never writes to any PV — every channel-access
operation it issues is a connect or a read of `{motor_pv}.RBV` — so running
its operation trace over any PV state leaves the state, the motor position
included, unchanged; and for every `relative_move` value the call returns
`True` whenever PyEPICS is available and the `.RBV` connection succeeds, with
no motion occurring. -/
theorem c10_motion_test_reads_only (e : Bool) (s : ExploreIOCs.EpicsState)
    (pv : String) (d : Int) :
    (ExploreIOCs.test_device_motion e s pv d).ops.all
      (fun op => !op.isPut) = true ∧
    ExploreIOCs.runOps s (ExploreIOCs.test_device_motion e s pv d).ops = s ∧
    (e = true → s.connected (pv ++ ".RBV") = true →
      (ExploreIOCs.test_device_motion e s pv d).ok = true) := by
  unfold ExploreIOCs.test_device_motion
  cases e with
  | false => exact ⟨rfl, rfl, fun h => by cases h⟩
  | true =>
    by_cases h : s.connected (pv ++ ".RBV") <;>
      simp [h, ExploreIOCs.runOps, ExploreIOCs.runOp, ExploreIOCs.PVOp.isPut]

/-- Witness for C10 at a concrete input: with PyEPICS available and a fully
connected PV namespace, the motion test on `gp:m1` with a relative move of 1
returns `True` and leaves the PV state unchanged. -/
theorem c10_motion_test_reads_only_witness :
    (ExploreIOCs.test_device_motion true ⟨fun _ => 0, fun _ => true⟩ "gp:m1" 1).ok
      = true ∧
    ExploreIOCs.runOps ⟨fun _ => 0, fun _ => true⟩
        (ExploreIOCs.test_device_motion true ⟨fun _ => 0, fun _ => true⟩ "gp:m1" 1).ops
      = ⟨fun _ => 0, fun _ => true⟩ :=
  ⟨(c10_motion_test_reads_only true ⟨fun _ => 0, fun _ => true⟩ "gp:m1" 1).2.2 rfl rfl,
   (c10_motion_test_reads_only true ⟨fun _ => 0, fun _ => true⟩ "gp:m1" 1).2.1⟩

end BitsValidation
